import Mathlib

/-!
Verification development for the geoscience-skills repository: shallow
embeddings, in Lean, of the script functions the specification talks about,
with theorems settling the specification's claims against them.

Numeric values computed by the scripts are modelled as rationals; library
routines the scripts call (numpy trigonometry, obspy, lasio, the inversion
engines) are parameters of the embeddings, since their code lives outside
the repository.
-/

namespace AvoAnalysis

/-- Elastic properties for a layer: the dataclass `LayerProperties` of
`bruges/scripts/avo_analysis.py`. -/
structure LayerProperties where
  vp : ℚ
  vs : ℚ
  rho : ℚ
deriving DecidableEq

/-- The `impedance` property: `vp * rho`. -/
def impedance (l : LayerProperties) : ℚ := l.vp * l.rho

/-- `vp_avg = (layer1.vp + layer2.vp) / 2` computed inside `shuey`. -/
def vp_avg (l1 l2 : LayerProperties) : ℚ := (l1.vp + l2.vp) / 2

/-- `vs_avg = (layer1.vs + layer2.vs) / 2` computed inside `shuey`. -/
def vs_avg (l1 l2 : LayerProperties) : ℚ := (l1.vs + l2.vs) / 2

/-- `rho_avg = (layer1.rho + layer2.rho) / 2` computed inside `shuey`. -/
def rho_avg (l1 l2 : LayerProperties) : ℚ := (l1.rho + l2.rho) / 2

/-- The intercept `R0 = 0.5 * (dvp/vp_avg + drho/rho_avg)` of `shuey`. -/
def R0val (l1 l2 : LayerProperties) : ℚ :=
  (1/2) * ((l2.vp - l1.vp) / vp_avg l1 l2 + (l2.rho - l1.rho) / rho_avg l1 l2)

/-- The gradient
`G = 0.5 * dvp/vp_avg - 2 * (vs_avg/vp_avg)**2 * (drho/rho_avg + 2*dvs/vs_avg)`
of `shuey`. -/
def Gval (l1 l2 : LayerProperties) : ℚ :=
  (1/2) * (l2.vp - l1.vp) / vp_avg l1 l2
    - 2 * (vs_avg l1 l2 / vp_avg l1 l2) ^ 2 *
        ((l2.rho - l1.rho) / rho_avg l1 l2 + 2 * (l2.vs - l1.vs) / vs_avg l1 l2)

/-- `shuey(layer1, layer2, theta)` at a single angle.  `sinSq θ` stands for
the library value `np.sin(np.deg2rad(θ))**2`, a parameter of the embedding;
the function returns `R0 + G * sin²θ` (the Shuey 2-term approximation). -/
def shuey (sinSq : ℚ → ℚ) (l1 l2 : LayerProperties) (theta : ℚ) : ℚ :=
  R0val l1 l2 + Gval l1 l2 * sinSq theta

/-- The sample angles `np.array([0, 5, 10, 15, 20])` that
`calculate_intercept_gradient` evaluates the Shuey curve on. -/
def thetaSamples : List ℚ := [0, 5, 10, 15, 20]

/-- Degree-1 least squares, the normal-equation solution `np.polyfit(x, y, 1)`
computes: `(slope, intercept)`, i.e. `(A[0], A[1])`. -/
def polyfit1 (x y : List ℚ) : ℚ × ℚ :=
  let n : ℚ := x.length
  let sx := x.sum
  let sy := y.sum
  let sxx := (x.map (fun t => t * t)).sum
  let sxy := ((x.zip y).map (fun p => p.1 * p.2)).sum
  let slope := (n * sxy - sx * sy) / (n * sxx - sx * sx)
  (slope, (sy - slope * sx) / n)

/-- `calculate_intercept_gradient(layer1, layer2)`: evaluates `shuey` on
`thetaSamples`, fits `Rpp` against `sin²θ` with `polyfit1` and returns
`(intercept, gradient)`. -/
def calculate_intercept_gradient (sinSq : ℚ → ℚ) (l1 l2 : LayerProperties) :
    ℚ × ℚ :=
  let sin2 := thetaSamples.map sinSq
  let Rpp := thetaSamples.map (shuey sinSq l1 l2)
  let A := polyfit1 sin2 Rpp
  (A.2, A.1)

/-- The denominator `n * Σx² - (Σx)²` of the degree-1 fit over the five
`thetaSamples` abscissae. -/
def fitDenom (sinSq : ℚ → ℚ) : ℚ :=
  let x := thetaSamples.map sinSq
  (x.length : ℚ) * (x.map (fun t => t * t)).sum - x.sum * x.sum

/-- `classify_avo(intercept, gradient)`; the literal `0.02` is the rational
`1/50`. -/
def classify_avo (intercept gradient : ℚ) : String :=
  if 1/50 < intercept then
    if gradient < 0 then "I" else "I (anomalous)"
  else if -(1/50) < intercept then
    if gradient < 0 then "II" else "IIp"
  else
    if gradient < 0 then "III" else "IV"

/-- Which of the three intercept regions of `classify_avo` a value falls in:
`0` above `0.02`, `1` for `(-0.02, 0.02]`, `2` for at most `-0.02`. -/
def interceptBucket (i : ℚ) : ℕ :=
  if 1/50 < i then 0 else if -(1/50) < i then 1 else 2

/-- The sign test `gradient < 0` used by `classify_avo`. -/
def gradNeg (g : ℚ) : Bool := decide (g < 0)

/-- The string `classify_avo` returns on each region/sign combination. -/
def bucketString : ℕ → Bool → String
  | 0, true => "I"
  | 0, false => "I (anomalous)"
  | 1, true => "II"
  | 1, false => "IIp"
  | _, true => "III"
  | _, false => "IV"

theorem classify_avo_eq_bucketString (i g : ℚ) :
    classify_avo i g = bucketString (interceptBucket i) (gradNeg g) := by
  unfold classify_avo interceptBucket gradNeg
  by_cases h3 : g < 0
  · rw [decide_eq_true h3]
    split_ifs <;> rfl
  · rw [decide_eq_false h3]
    split_ifs <;> rfl

/-- Upper layer of the worked example in the module docstring of
avo_analysis.py (`--vp1 3000 --vs1 1500 --rho1 2.4`). -/
def layerA : LayerProperties := ⟨3000, 1500, 12/5⟩

/-- Lower layer of the worked example (`--vp2 3500 --vs2 1800 --rho2 2.5`). -/
def layerB : LayerProperties := ⟨3500, 1800, 5/2⟩

/-- C6: `shuey` is a total stateless function of its arguments: it equals the
closed-form `R0 + G * sin²θ`, and under strictly positive `vp`, `vs`, `rho`
of both layers each denominator it divides by (`vp_avg`, `vs_avg`,
`rho_avg`) is strictly positive, so no division hits zero. -/
theorem shuey_total_positive_denominators (sinSq : ℚ → ℚ)
    (l1 l2 : LayerProperties) (theta : ℚ)
    (hvp1 : 0 < l1.vp) (hvs1 : 0 < l1.vs) (hrho1 : 0 < l1.rho)
    (hvp2 : 0 < l2.vp) (hvs2 : 0 < l2.vs) (hrho2 : 0 < l2.rho) :
    0 < vp_avg l1 l2 ∧ 0 < vs_avg l1 l2 ∧ 0 < rho_avg l1 l2 ∧
      shuey sinSq l1 l2 theta = R0val l1 l2 + Gval l1 l2 * sinSq theta := by
  refine ⟨?_, ?_, ?_, rfl⟩
  · exact div_pos (add_pos hvp1 hvp2) (by norm_num)
  · exact div_pos (add_pos hvs1 hvs2) (by norm_num)
  · exact div_pos (add_pos hrho1 hrho2) (by norm_num)

theorem shuey_total_positive_denominators_witness :
    0 < vp_avg layerA layerB ∧ 0 < vs_avg layerA layerB ∧
      0 < rho_avg layerA layerB ∧
      shuey (fun t => t * t) layerA layerB 30 =
        R0val layerA layerB + Gval layerA layerB * ((30 : ℚ) * 30) :=
  shuey_total_positive_denominators (fun t => t * t) layerA layerB 30
    (by norm_num [layerA]) (by norm_num [layerA]) (by norm_num [layerA])
    (by norm_num [layerB]) (by norm_num [layerB]) (by norm_num [layerB])

/-- C10: `classify_avo` is total and exhaustive: it always returns one of the
six strings, its result depends only on which of the three intercept regions
(`> 0.02`, `(-0.02, 0.02]`, `≤ -0.02`) the intercept falls in together with
the sign test `gradient < 0`, and `interceptBucket` matches exactly those
three regions. -/
theorem classify_avo_total_exhaustive (i g iB gB : ℚ)
    (hb : interceptBucket i = interceptBucket iB)
    (hg : gradNeg g = gradNeg gB) :
    classify_avo i g = classify_avo iB gB ∧
    (classify_avo i g = "I" ∨ classify_avo i g = "I (anomalous)" ∨
      classify_avo i g = "II" ∨ classify_avo i g = "IIp" ∨
      classify_avo i g = "III" ∨ classify_avo i g = "IV") ∧
    (interceptBucket i = 0 ↔ 1/50 < i) ∧
    (interceptBucket i = 1 ↔ (-(1/50) < i ∧ i ≤ 1/50)) ∧
    (interceptBucket i = 2 ↔ i ≤ -(1/50)) ∧
    (gradNeg g = true ↔ g < 0) := by
  refine ⟨?_, ?_, ?_, ?_, ?_, ?_⟩
  · rw [classify_avo_eq_bucketString, classify_avo_eq_bucketString, hb, hg]
  · unfold classify_avo
    split_ifs <;> simp
  · unfold interceptBucket
    split_ifs with h1 h2
    · exact iff_of_true rfl h1
    · exact iff_of_false (by norm_num) h1
    · exact iff_of_false (by norm_num) h1
  · unfold interceptBucket
    split_ifs with h1 h2
    · exact iff_of_false (by norm_num) (fun hc => absurd hc.2 (not_le.mpr h1))
    · exact iff_of_true rfl ⟨h2, not_lt.mp h1⟩
    · exact iff_of_false (by norm_num) (fun hc => absurd hc.1 h2)
  · unfold interceptBucket
    split_ifs with h1 h2
    · exact iff_of_false (by norm_num) (by intro hc; linarith)
    · exact iff_of_false (by norm_num) (by intro hc; linarith)
    · exact iff_of_true rfl (not_lt.mp h2)
  · simp [gradNeg]

/-- The normal-equation components of a degree-1 fit over data that is
exactly affine, `y = r + g·x`, reduce to `(g, r)`. -/
theorem fit_components (n sx sy sxx sxy r g : ℚ)
    (hDen : n * sxx - sx * sx ≠ 0) (hn : n ≠ 0)
    (h2 : sy = n * r + g * sx) (h3 : sxy = r * sx + g * sxx) :
    ((n * sxy - sx * sy) / (n * sxx - sx * sx),
      (sy - (n * sxy - sx * sy) / (n * sxx - sx * sx) * sx) / n) = (g, r) := by
  have hslope : (n * sxy - sx * sy) / (n * sxx - sx * sx) = g := by
    rw [div_eq_iff hDen, h2, h3]
    ring
  rw [hslope, h2, Prod.mk.injEq]
  exact ⟨rfl, by rw [div_eq_iff hn]; ring⟩

/-- Degree-1 least squares through five points whose ordinates are exactly
affine in the abscissae recovers the slope and intercept, provided the
normal-equation denominator is nonzero. -/
theorem polyfit1_affine5 (a b c d e r g : ℚ)
    (h : 5 * (a * a + b * b + c * c + d * d + e * e)
        - (a + b + c + d + e) * (a + b + c + d + e) ≠ 0) :
    polyfit1 [a, b, c, d, e]
        [r + g * a, r + g * b, r + g * c, r + g * d, r + g * e] = (g, r) := by
  rw [← fit_components 5 (a + b + c + d + e)
      ((r + g * a) + (r + g * b) + (r + g * c) + (r + g * d) + (r + g * e))
      (a * a + b * b + c * c + d * d + e * e)
      (a * (r + g * a) + b * (r + g * b) + c * (r + g * c) + d * (r + g * d)
        + e * (r + g * e)) r g h (by norm_num) (by ring) (by ring)]
  unfold polyfit1
  simp only [List.zip_cons_cons, List.zip_nil_right, List.map_cons, List.map_nil,
    List.sum_cons, List.sum_nil, List.length_cons, List.length_nil]
  push_cast
  congr 1 <;> ring

/-- C2 as stated is false: the degree-1 fit inside
`calculate_intercept_gradient` is taken over the five sample angles
`thetaSamples = [0, 5, 10, 15, 20]`, not over two sample points. -/
theorem calculate_intercept_gradient_two_points_false :
    thetaSamples.length = 5 ∧ thetaSamples.length ≠ 2 := by
  constructor <;> decide

/-- C2 (amended): `calculate_intercept_gradient` computes its degree-1 fit of
`Rpp` against `sin²θ` from the five sample points at `thetaSamples`; because
the Shuey curve is exactly affine in `sin²θ`, the least-squares fit returns
exactly `(R0, G)` whenever the fit's denominator is nonzero. -/
theorem calculate_intercept_gradient_five_point_fit (sinSq : ℚ → ℚ)
    (l1 l2 : LayerProperties) (h : fitDenom sinSq ≠ 0) :
    calculate_intercept_gradient sinSq l1 l2 = (R0val l1 l2, Gval l1 l2) := by
  have hde : fitDenom sinSq =
      5 * (sinSq 0 * sinSq 0 + sinSq 5 * sinSq 5 + sinSq 10 * sinSq 10
            + sinSq 15 * sinSq 15 + sinSq 20 * sinSq 20)
        - (sinSq 0 + sinSq 5 + sinSq 10 + sinSq 15 + sinSq 20)
            * (sinSq 0 + sinSq 5 + sinSq 10 + sinSq 15 + sinSq 20) := by
    unfold fitDenom thetaSamples
    simp only [List.map_cons, List.map_nil, List.sum_cons, List.sum_nil,
      List.length_cons, List.length_nil]
    push_cast
    ring
  rw [hde] at h
  have hfit := polyfit1_affine5 (sinSq 0) (sinSq 5) (sinSq 10) (sinSq 15)
    (sinSq 20) (R0val l1 l2) (Gval l1 l2) h
  unfold calculate_intercept_gradient thetaSamples
  simp only [List.map_cons, List.map_nil]
  unfold shuey
  rw [hfit]

/-- A concrete strictly increasing stand-in for the library values
`np.sin(np.deg2rad(θ))**2` on the sampled range, used to instantiate
theorems at a concrete input. -/
def sinSqDemo : ℚ → ℚ := fun theta => theta * theta / 2000

theorem calculate_intercept_gradient_five_point_fit_witness :
    fitDenom sinSqDemo ≠ 0 ∧
      calculate_intercept_gradient sinSqDemo layerA layerB =
        (R0val layerA layerB, Gval layerA layerB) :=
  ⟨by norm_num [fitDenom, thetaSamples, sinSqDemo],
    calculate_intercept_gradient_five_point_fit sinSqDemo layerA layerB
      (by norm_num [fitDenom, thetaSamples, sinSqDemo])⟩

/-- `zoeppritz(layer1, layer2, theta)` of avo_analysis.py.  The
attempted import of `bruges.reflection.zoeppritz` is modelled by the
environment argument `ext`: `some brg` when the external library imports (with `brg` the
external routine), `none` when the import raises `ImportError`.  The Boolean
in the result records whether the external routine produced the returned
values. -/
def zoeppritzRun
    (ext : Option (ℚ → ℚ → ℚ → ℚ → ℚ → ℚ → List ℚ → List ℚ))
    (sinSq : ℚ → ℚ) (l1 l2 : LayerProperties) (theta : List ℚ) :
    List ℚ × Bool :=
  match ext with
  | some brg => (brg l1.vp l1.vs l1.rho l2.vp l2.vs l2.rho theta, true)
  | none => (theta.map (shuey sinSq l1 l2), false)

/-- C3 as stated is false: in the environment where the import of
`bruges.reflection` raises `ImportError`, `zoeppritz` returns the locally
computed Shuey approximation, not a value computed by the external
`bruges.reflection.zoeppritz` routine. -/
theorem zoeppritz_external_only_false :
    (zoeppritzRun none sinSqDemo layerA layerB [30]).2 = false ∧
      (zoeppritzRun none sinSqDemo layerA layerB [30]).1 =
        [shuey sinSqDemo layerA layerB 30] :=
  ⟨rfl, rfl⟩

/-- C3 (amended): when the import of `bruges.reflection` succeeds,
`zoeppritz` only marshals the six layer parameters and the angle array into
the external routine and returns its value unchanged; when the import fails
it falls back to the local `shuey` approximation. -/
theorem zoeppritz_marshals_or_fallback
    (f : ℚ → ℚ → ℚ → ℚ → ℚ → ℚ → List ℚ → List ℚ) (sinSq : ℚ → ℚ)
    (l1 l2 : LayerProperties) (theta : List ℚ) :
    zoeppritzRun (some f) sinSq l1 l2 theta =
        (f l1.vp l1.vs l1.rho l2.vp l2.vs l2.rho theta, true) ∧
      zoeppritzRun none sinSq l1 l2 theta =
        (theta.map (shuey sinSq l1 l2), false) :=
  ⟨rfl, rfl⟩

theorem classify_avo_total_exhaustive_witness :
    interceptBucket 1 = interceptBucket (1/10) ∧ gradNeg (-1) = gradNeg (-2) ∧
      classify_avo 1 (-1) = classify_avo (1/10) (-2) :=
  ⟨by norm_num [interceptBucket], by norm_num [gradNeg],
    (classify_avo_total_exhaustive 1 (-1) (1/10) (-2)
      (by norm_num [interceptBucket]) (by norm_num [gradNeg])).1⟩

end AvoAnalysis

namespace BatchProcess

/-- The result-collection loop of `batch_process` (obspy/scripts/
batch_process.py): with `workers == 1` the results are appended in file
order; with any other worker count, `as_completed` yields every submitted
future exactly once in some completion order, modelled by the list `order`,
a permutation of `files`.  `pf` is `process_file` with the keyword
arguments fixed. -/
def batch_process_results {F R : Type} (pf : F → R) (files : List F)
    (workers : ℕ) (order : List F) : List R :=
  if workers = 1 then files.map pf else order.map pf

/-- C1: `batch_process` is an embarrassingly parallel map: whatever the
worker count `w ≥ 1` and whatever completion order the pool delivers, the
multiset of per-file results equals the multiset of the sequential run, each
file's result being `pf` of that file alone (independent of `w`), and the
parallel result list is a permutation of the sequential one. -/
theorem batch_process_is_parallel_map {F R : Type} (pf : F → R)
    (files : List F) (workers : ℕ) (order : List F)
    (hw : 1 ≤ workers) (hperm : order.Perm files) :
    (batch_process_results pf files workers order).Perm (files.map pf) ∧
      (batch_process_results pf files workers order : Multiset R) =
        ((files.map pf : List R) : Multiset R) ∧
      batch_process_results pf files 1 order = files.map pf := by
  have hp : (batch_process_results pf files workers order).Perm (files.map pf) := by
    unfold batch_process_results
    split_ifs with h1
    · exact List.Perm.refl _
    · exact hperm.map pf
  exact ⟨hp, Multiset.coe_eq_coe.mpr hp, by unfold batch_process_results; simp⟩

theorem batch_process_is_parallel_map_witness :
    1 ≤ 2 ∧ List.Perm [3, 1, 2] [1, 2, 3] ∧
      (batch_process_results Nat.succ [1, 2, 3] 2 [3, 1, 2]).Perm
        ([1, 2, 3].map Nat.succ) :=
  ⟨by decide, by decide,
    (batch_process_is_parallel_map Nat.succ [1, 2, 3] 2 [3, 1, 2]
      (by decide) (by decide)).1⟩

/-- The result dict `process_file` builds: the four keys it starts from plus
the three keys the success path adds (`none` modelling Python `None` for
`output`/`error` and an absent key for the trailing stats fields). -/
structure ProcResult where
  file : String
  status : String
  output : Option String
  error : Option String
  n_traces : Option ℕ
  sampling_rate : Option ℚ
  duration : Option ℚ
deriving DecidableEq

/-- The external obspy operations `process_file` performs, each modelled as
either returning a value or raising (`Except.error` carries `str(e)`).
`S` is the type of the stream object `obspy.read` returns; `len_op` is
Python `len`, which cannot raise, while indexing `st[0]` inside the
`sampling_rate`/`duration` reads can (e.g. `IndexError` on an empty
stream).  `stem` is `pathlib.Path(...).stem`. -/
structure ObspyEnv (S : Type) where
  read : Except String S
  detrend_demean : S → Except String S
  detrend_linear : S → Except String S
  taper_op : S → Except String S
  remove_response_block : S → Except String S
  filter_op : S → Except String S
  decimate_op : S → Except String S
  write_op : S → String → Except String Unit
  len_op : S → ℕ
  sampling_rate_op : S → Except String ℚ
  duration_op : S → Except String ℚ
  stem : String → String

/-- `ext_map.get(output_format, ".mseed")`. -/
def extFor (fmt : String) : String :=
  if fmt = "MSEED" then ".mseed"
  else if fmt = "SAC" then ".sac"
  else if fmt = "GSE2" then ".gse"
  else if fmt = "SEGY" then ".sgy"
  else ".mseed"

/-- `process_file` of obspy/scripts/batch_process.py.  The `try` body runs
the processing pipeline; the first operation that raises transfers control
to the `except` handler, which flips `status` to `"error"` and stores
`str(e)` while keeping every result key already assigned.  The assignments
`result["output"]`/`result["n_traces"]` happen after a successful write and
before the `st[0].stats` reads, exactly as in the source. -/
def process_file {S : Type} (env : ObspyEnv S) (filepath : String)
    (output_dir : String) (detrend : Bool) (taper : ℚ)
    (filter_type : Option String) (decimate_factor : Option ℤ)
    (remove_response : Bool) (output_format : String) : ProcResult :=
  let r0 : ProcResult :=
    { file := filepath, status := "success", output := none, error := none,
      n_traces := none, sampling_rate := none, duration := none }
  let pipeline : Except String S := do
    let st0 ← env.read
    let st1 ← if detrend then do
        let sa ← env.detrend_demean st0
        env.detrend_linear sa
      else pure st0
    let st2 ← if 0 < taper then env.taper_op st1 else pure st1
    let st3 ← if remove_response then env.remove_response_block st2 else pure st2
    let st4 ← match filter_type with
      | some ft =>
        if ft = "bandpass" ∨ ft = "highpass" ∨ ft = "lowpass" then
          env.filter_op st3
        else pure st3
      | none => pure st3
    match decimate_factor with
      | some k => if 1 < k then env.decimate_op st4 else pure st4
      | none => pure st4
  match pipeline with
  | .error e => { r0 with status := "error", error := some e }
  | .ok st =>
    let output_file :=
      output_dir ++ "/" ++ env.stem filepath ++ extFor output_format
    match env.write_op st output_file with
    | .error e => { r0 with status := "error", error := some e }
    | .ok _ =>
      let r1 := { r0 with output := some output_file,
                          n_traces := some (env.len_op st) }
      match env.sampling_rate_op st with
      | .error e => { r1 with status := "error", error := some e }
      | .ok sr =>
        let r2 := { r1 with sampling_rate := some sr }
        match env.duration_op st with
        | .error e => { r2 with status := "error", error := some e }
        | .ok d => { r2 with duration := some d }

/-- An environment in which every step up to and including the write
succeeds on an empty stream, and the `st[0].stats` reads then raise
`IndexError` — the write has already assigned `result["output"]`. -/
def envEmptyStream : ObspyEnv Unit :=
  { read := .ok (), detrend_demean := fun s => .ok s,
    detrend_linear := fun s => .ok s, taper_op := fun s => .ok s,
    remove_response_block := fun s => .ok s, filter_op := fun s => .ok s,
    decimate_op := fun s => .ok s, write_op := fun _ _ => .ok (),
    len_op := fun _ => 0,
    sampling_rate_op := fun _ => .error ("list index out of range"),
    duration_op := fun _ => .error ("list index out of range"),
    stem := fun _ => "a" }

/-- C8 as stated is false on its last conjunct: when every step through the
output write succeeds but the subsequent `st[0].stats` read raises (an empty
stream), the returned dict has `status = "error"` with a non-`None` `error`
and a non-`None` `output` — `output` is not `None`-only-on-error. -/
theorem process_file_output_none_on_error_false :
    (process_file envEmptyStream "a.mseed" "out" false 0 none none
        false "MSEED").status = "error" ∧
      (process_file envEmptyStream "a.mseed" "out" false 0 none none
          false "MSEED").error = some ("list index out of range") ∧
      (process_file envEmptyStream "a.mseed" "out" false 0 none none
          false "MSEED").output = some ("out/a.mseed") := by
  refine ⟨?_, ?_, ?_⟩ <;>
    simp [process_file, envEmptyStream, extFor, Except.bind]

/-- C8 (amended): `process_file` never raises and always returns a dict
whose `status` is `"success"` or `"error"`; `error` is non-`None` exactly
when `status` is `"error"`; and a `"success"` status guarantees a
non-`None` `output` — but a non-`None` `output` can accompany an `"error"`
status when a failure occurs after the output file was written. -/
theorem process_file_status_error_invariants {S : Type} (env : ObspyEnv S)
    (filepath output_dir : String) (detrend : Bool) (taper : ℚ)
    (filter_type : Option String) (decimate_factor : Option ℤ)
    (remove_response : Bool) (output_format : String) :
    ((process_file env filepath output_dir detrend taper filter_type
        decimate_factor remove_response output_format).status = "success" ∨
      (process_file env filepath output_dir detrend taper filter_type
        decimate_factor remove_response output_format).status = "error") ∧
    ((process_file env filepath output_dir detrend taper filter_type
        decimate_factor remove_response output_format).error ≠ none ↔
      (process_file env filepath output_dir detrend taper filter_type
        decimate_factor remove_response output_format).status = "error") ∧
    ((process_file env filepath output_dir detrend taper filter_type
        decimate_factor remove_response output_format).status = "success" →
      (process_file env filepath output_dir detrend taper filter_type
        decimate_factor remove_response output_format).output ≠ none) := by
  unfold process_file
  cases hpipe : (do
      let st0 ← env.read
      let st1 ← if detrend then do
          let sa ← env.detrend_demean st0
          env.detrend_linear sa
        else pure st0
      let st2 ← if 0 < taper then env.taper_op st1 else pure st1
      let st3 ← if remove_response then env.remove_response_block st2
        else pure st2
      let st4 ← match filter_type with
        | some ft =>
          if ft = "bandpass" ∨ ft = "highpass" ∨ ft = "lowpass" then
            env.filter_op st3
          else pure st3
        | none => pure st3
      match decimate_factor with
        | some k => if 1 < k then env.decimate_op st4 else pure st4
        | none => pure st4 : Except String S) with
  | error e => simp
  | ok st =>
    cases hw : env.write_op st
        (output_dir ++ "/" ++ env.stem filepath ++ extFor output_format) with
    | error e => simp [hw]
    | ok u =>
      cases hsr : env.sampling_rate_op st with
      | error e => simp [hw, hsr]
      | ok sr =>
        cases hd : env.duration_op st with
        | error e => simp [hw, hsr, hd]
        | ok d => simp [hw, hsr, hd]

end BatchProcess

namespace LasToCsv

/-- A parsed LAS file as `las_to_csv` (lasio/scripts/las_to_csv.py) observes
it: `df` is `las.df().reset_index()` as (column name, cells) pairs with the
depth index as first column, a `none` cell standing for NaN; `nullWell` is
the raw `las.well.get("NULL", {}).get("value", -999.25)` entry, `none` when
the NULL item is absent (then the default float `-999.25` is used). -/
structure LasFile where
  df : List (String × List (Option ℚ))
  nullWell : Option String

/-- The column names `df.columns`. -/
def columnsOf (df : List (String × List (Option ℚ))) : List String :=
  df.map Prod.fst

/-- `df[cols]`: select the named columns in the given order. -/
def selectCols (df : List (String × List (Option ℚ))) (cols : List String) :
    List (String × List (Option ℚ)) :=
  cols.filterMap (fun c => df.find? (fun col => col.1 = c))

/-- `df.replace(null_val, np.nan)`. -/
def replaceNull (df : List (String × List (Option ℚ))) (v : ℚ) :
    List (String × List (Option ℚ)) :=
  df.map (fun col => (col.1, col.2.map (fun cell =>
    if cell = some v then none else cell)))

/-- `las_to_csv(las_path, csv_path, curves, replace_null)`.  External calls
are parameters: `readResult` is the outcome of `lasio.read(las_path)` (an
`Except.error` is the raised exception, which no handler in the source
catches), `suffixCsv` is `str(Path(las_path).with_suffix(".csv"))` and
`floatOf` is Python `float`, `none` when it raises `ValueError`/`TypeError`
(the source's only `try/except`, which silently passes).  The result is the
returned csv path together with the dataframe written to it. -/
def las_to_csv (las_path : String) (readResult : Except String LasFile)
    (suffixCsv : String → String) (floatOf : String → Option ℚ)
    (csv_path : Option String) (curves : Option (List String))
    (replace_null : Bool) :
    Except String (String × List (String × List (Option ℚ))) := do
  let las ← readResult
  let df0 := las.df
  let df1 :=
    match curves with
    | some cs =>
      if cs ≠ [] then
        match df0 with
        | [] => selectCols df0 (cs.filter (fun c => c ∈ columnsOf df0))
        | depthCol :: _ =>
          selectCols df0 (depthCol.1 :: cs.filter (fun c => c ∈ columnsOf df0))
      else df0
    | none => df0
  let df2 :=
    if replace_null then
      match (match las.nullWell with
             | some s => floatOf s
             | none => some (-(999.25 : ℚ))) with
      | some v => replaceNull df1 v
      | none => df1
    else df1
  let out :=
    match csv_path with
    | some p => p
    | none => suffixCsv las_path
  pure (out, df2)

/-- C5 as stated is false: `las_to_csv` does not wrap `lasio.read` in
`try/except`, so on an input where `lasio.read` raises, the exception
propagates out of the conversion unchanged instead of being turned into a
printed message and an exit. -/
theorem las_to_csv_catches_read_false :
    las_to_csv "well.las" (Except.error ("unable to parse LAS file"))
        (fun p => p ++ (".csv")) (fun _ => none) none none true =
      Except.error ("unable to parse LAS file") := rfl

/-- C5 (amended): not every script wraps its library calls in `try/except`:
`las_to_csv` lets every exception of `lasio.read` propagate to its caller
unchanged, for every combination of the remaining arguments; its only
`try/except` guards the `float(null_val)` conversion and silently passes. -/
theorem las_to_csv_read_error_propagates (e : String) (las_path : String)
    (suffixCsv : String → String) (floatOf : String → Option ℚ)
    (csv_path : Option String) (curves : Option (List String))
    (replace_null : Bool) :
    las_to_csv las_path (Except.error e) suffixCsv floatOf csv_path curves
      replace_null = Except.error e := rfl

end LasToCsv

namespace Inversions

/-- The external simpeg machinery `run_inversion` of
simpeg/scripts/dc_inversion.py uses: `np.log`, the composed
`inversion.BaseInversion(...).run` engine, and the `maps.ExpMap` applied as
`sigma_map * mrec`. -/
structure DcEnv where
  log : ℚ → ℚ
  inv_run : List ℚ → List ℚ
  expMap : List ℚ → List ℚ

/-- `run_inversion(mesh, survey, obs_data, max_iter)` of dc_inversion.py,
reduced to its data flow: the starting model is
`np.log(1/100) * np.ones(mesh.nC)`, the recovered model is
`inv.run(m0)`, and the returned resistivity is `1 / (sigma_map * mrec)`.
The second component records the methods invoked on the external
inversion-engine object `inv` (a `BaseInversion`): the source calls
`inv.run(m0)` once and never any `.invert()` method. -/
def dc_run_inversion (env : DcEnv) (nC : ℕ) : List ℚ × List String :=
  let m0 := List.replicate nC (env.log (1/100))
  let mrec := env.inv_run m0
  let sigma_rec := env.expMap mrec
  let rho_rec := sigma_rec.map (fun s => 1 / s)
  (rho_rec, ["run"])

/-- The external pygimli machinery used by `run_inversion` of
pygimli/scripts/ert_inversion.py: `mgr.invert(lam, zWeight, robustData,
maxIter, verbose)` and the summary statistics read afterwards. -/
structure ErtEnv where
  invert : ℚ → ℚ → Bool → ℕ → Bool → List ℚ
  chi2 : ℚ
  relrms : ℚ
  iterCount : ℕ

/-- `run_inversion(data, mesh, lam, z_weight, robust, max_iter, verbose)` of
ert_inversion.py.  The second component records the methods invoked on the
external `ERTManager` object `mgr`: an optional `setMesh`, then exactly one
`invert` producing the model, then the three summary reads on `mgr.inv`. -/
def ert_run_inversion (env : ErtEnv) (hasMesh : Bool) (lam z_weight : ℚ)
    (robust : Bool) (max_iter : ℕ) (verbose : Bool) : List ℚ × List String :=
  let pre := if hasMesh then ["setMesh"] else []
  let model := env.invert lam z_weight robust max_iter verbose
  (model, pre ++ ["invert", "inv.chi2", "inv.relrms", "inv.iter"])

/-- A concrete environment for evaluating the dc trace. -/
def dcEnvDemo : DcEnv :=
  { log := fun q => q, inv_run := fun m => m, expMap := fun m => m }

/-- C4 as stated is false for dc_inversion.py: its recovered model is not
produced by any `.invert()` invocation — the engine trace of
`dc_run_inversion` contains no `invert` call at all; the single engine call
is `BaseInversion.run`. -/
theorem dc_inversion_invert_method_false :
    (dc_run_inversion dcEnvDemo 2).2.count ("invert") = 0 ∧
      (dc_run_inversion dcEnvDemo 2).2 = ["run"] := by
  constructor <;> rfl

/-- C4 (amended): each script obtains its recovered model from exactly one
invocation of the external engine's driver method — `inv.run(m0)` (not
`.invert()`) for dc_inversion.py, and exactly one `mgr.invert(...)` for
ert_inversion.py — and the models are exactly the external engines'
return values (for dc, post-composed with `1 / (sigma_map * mrec)`). -/
theorem inversion_single_engine_invocation (env : DcEnv) (nC : ℕ)
    (envE : ErtEnv) (hasMesh : Bool) (lam z_weight : ℚ) (robust : Bool)
    (max_iter : ℕ) (verbose : Bool) :
    (dc_run_inversion env nC).2.count ("run") = 1 ∧
      (dc_run_inversion env nC).2.count ("invert") = 0 ∧
      (dc_run_inversion env nC).1 =
        (env.expMap (env.inv_run (List.replicate nC (env.log (1/100))))).map
          (fun s => 1 / s) ∧
      (ert_run_inversion envE hasMesh lam z_weight robust max_iter
          verbose).2.count ("invert") = 1 ∧
      (ert_run_inversion envE hasMesh lam z_weight robust max_iter
          verbose).1 = envE.invert lam z_weight robust max_iter verbose := by
  refine ⟨rfl, rfl, rfl, ?_, rfl⟩
  cases hasMesh <;> rfl

end Inversions

namespace ValidateSkills

/-- A YAML value as scripts/validate_skills.py observes it: the script only
ever asks whether a value is a list and how many items it has. -/
inductive YamlVal where
  | list (n : ℕ)
  | other
deriving DecidableEq

/-- The outcome of `parse_frontmatter` on a SKILL.md: `missing` when the
text does not start with `---` or has fewer than three `---` parts, 
`invalid e` for the `{"_error": e}` dict a yaml failure produces, and
`ok fields` for a parsed mapping given as (key, value) pairs. -/
inductive FmResult where
  | missing
  | invalid (e : String)
  | ok (fields : List (String × YamlVal))
deriving DecidableEq

/-- What `validate_skill` reads from one skill directory: its name, the
frontmatter parse outcome, `len(text.splitlines())`, the line numbers of
fenced code blocks without a language tag, and whether the text contains
"when to use". -/
structure SkillInput where
  dirName : String
  fm : FmResult
  lineCount : ℕ
  untaggedCodeBlockLines : List ℕ
  hasWhenToUse : Bool
deriving DecidableEq

def REQUIRED_FRONTMATTER_FIELDS : List String :=
  ["name", "description", "version", "author", "license", "tags",
   "dependencies"]

def MIN_LINES : ℕ := 150

def MAX_LINES : ℕ := 500

def MIN_TAGS : ℕ := 7

/-- `validate_skill(skill_dir)`: the list of `(level, message)` issues, in
source order.  A missing or invalid frontmatter returns immediately with a
single ERROR; otherwise missing required fields are ERRORs, a short tag
list and a short file are WARNs, an overlong file is an ERROR, each
untagged code block is a WARN, and a missing "when to use" section is a
WARN. -/
def validate_skill (s : SkillInput) : List (String × String) :=
  match s.fm with
  | .missing => [("ERROR", "Missing YAML frontmatter")]
  | .invalid e => [("ERROR", "Invalid YAML: " ++ e)]
  | .ok fields =>
    let fieldIssues := (REQUIRED_FRONTMATTER_FIELDS.filter
        (fun f => (fields.lookup f).isNone)).map
        (fun f => ("ERROR", "Missing frontmatter field: " ++ f))
    let tags := (fields.lookup ("tags")).getD (YamlVal.list 0)
    let tagIssues := match tags with
      | .list n =>
        if n < MIN_TAGS then
          [("WARN", "Only " ++ toString n ++ " tags (recommend " ++
            toString MIN_TAGS ++ "+)")]
        else []
      | .other => []
    let lineIssues :=
      if s.lineCount < MIN_LINES then
        [("WARN", "Only " ++ toString s.lineCount ++ " lines (minimum " ++
          toString MIN_LINES ++ ")")]
      else if MAX_LINES < s.lineCount then
        [("ERROR", toString s.lineCount ++ " lines exceeds maximum " ++
          toString MAX_LINES)]
      else []
    let codeIssues := s.untaggedCodeBlockLines.map
      (fun n => ("WARN", "Code block without language tag at line " ++
        toString n))
    let sectionIssues :=
      if s.hasWhenToUse then []
      else [("WARN", "Missing 'When to use vs alternatives' section")]
    fieldIssues ++ tagIssues ++ lineIssues ++ codeIssues ++ sectionIssues

/-- The marketplace.json state `validate_marketplace` observes: absent,
unparseable, or parsed with the set of plugin names (as a duplicate-free
list, Python builds a set). -/
inductive MarketplaceState where
  | missing
  | invalidJson (e : String)
  | ok (pluginNames : List String)
deriving DecidableEq

/-- `validate_marketplace(root, skill_names)`: a missing or unparseable
marketplace.json is one ERROR; otherwise every skill absent from the
plugin names is an ERROR and every plugin without a skill directory a
WARN. -/
def validate_marketplace (mp : MarketplaceState) (skillNames : List String) :
    List (String × String) :=
  match mp with
  | .missing => [("ERROR", "Missing .claude-plugin/marketplace.json")]
  | .invalidJson e => [("ERROR", "Invalid JSON: " ++ e)]
  | .ok plugins =>
    (skillNames.filter (fun s => s ∉ plugins)).map
        (fun s => ("ERROR", "Skill not in marketplace.json plugins: " ++ s))
      ++ (plugins.filter (fun p => p ∉ skillNames)).map
        (fun p => ("WARN",
          "Plugin in marketplace.json but no skill directory found: " ++ p))

/-- Every issue `main` tallies: the per-skill issues followed by the
marketplace issues. -/
def allIssues (skills : List SkillInput) (mp : MarketplaceState) :
    List (String × String) :=
  (skills.map validate_skill).join
    ++ validate_marketplace mp (skills.map (fun d => d.dirName))

/-- The exit status of `main()` in scripts/validate_skills.py: `sys.exit(1)`
immediately when no skill directory was found, otherwise `sys.exit(1)` when
`total_errors > 0` and `sys.exit(0)` when not, with `total_errors` the sum
over skills of their ERROR issues plus the marketplace ERROR issues. -/
def main_exit (skills : List SkillInput) (mp : MarketplaceState) : ℕ :=
  if skills = [] then 1
  else
    let total_errors :=
      (skills.map
          (fun d => ((validate_skill d).filter (fun i => i.1 = "ERROR")).length)).sum
        + ((validate_marketplace mp (skills.map (fun d => d.dirName))).filter
            (fun i => i.1 = "ERROR")).length
    if 0 < total_errors then 1 else 0

/-- C9: `main` exits with status 1 exactly when no skill directory was found
or some ERROR-level issue exists across the skill checks and the
marketplace check, exits 0 exactly when skills were found and every issue
is below ERROR level (so WARNs alone never give a nonzero status), and
never exits with any other status. -/
theorem validate_skills_exit_status (skills : List SkillInput)
    (mp : MarketplaceState) :
    (main_exit skills mp = 1 ↔
        (skills = [] ∨ ∃ i ∈ allIssues skills mp, i.1 = "ERROR")) ∧
      (main_exit skills mp = 0 ↔
        (skills ≠ [] ∧ ∀ i ∈ allIssues skills mp, i.1 ≠ "ERROR")) ∧
      (main_exit skills mp = 0 ∨ main_exit skills mp = 1) := by
  by_cases hs : skills = []
  · subst hs
    refine ⟨?_, ?_, Or.inr rfl⟩
    · simp [main_exit]
    · simp [main_exit]
  · have key :
        (skills.map
            (fun d => ((validate_skill d).filter (fun i => i.1 = "ERROR")).length)).sum
          + ((validate_marketplace mp (skills.map (fun d => d.dirName))).filter
              (fun i => i.1 = "ERROR")).length
        = ((allIssues skills mp).filter (fun i => i.1 = "ERROR")).length := by
      simp only [allIssues, List.filter_append, List.length_append,
        ← List.countP_eq_length_filter, List.countP_join, List.map_map]
      rfl
    have hmain : main_exit skills mp =
        if 0 < ((allIssues skills mp).filter (fun i => i.1 = "ERROR")).length
        then 1 else 0 := by
      rw [main_exit, if_neg hs, key]
    have hex : 0 < ((allIssues skills mp).filter (fun i => i.1 = "ERROR")).length
        ↔ ∃ i ∈ allIssues skills mp, i.1 = "ERROR" := by
      rw [List.length_pos]
      constructor
      · intro hne
        obtain ⟨a, ha⟩ := List.exists_mem_of_ne_nil _ hne
        have := List.mem_filter.mp ha
        exact ⟨a, this.1, by simpa using this.2⟩
      · rintro ⟨a, ha, hE⟩
        intro hnil
        have : a ∈ ((allIssues skills mp).filter (fun i => i.1 = "ERROR")) :=
          List.mem_filter.mpr ⟨ha, by simpa using hE⟩
        simp [hnil] at this
    rw [hmain]
    by_cases hp : 0 < ((allIssues skills mp).filter (fun i => i.1 = "ERROR")).length
    · rw [if_pos hp]
      refine ⟨?_, ?_, Or.inr rfl⟩
      · simp only [true_iff]
        exact Or.inr (hex.mp hp)
      · constructor
        · intro h10
          exact absurd h10 (by norm_num)
        · rintro ⟨-, hall⟩
          obtain ⟨i, hi, hE⟩ := hex.mp hp
          exact absurd hE (hall i hi)
    · rw [if_neg hp]
      refine ⟨?_, ?_, Or.inl rfl⟩
      · constructor
        · intro h01
          exact absurd h01 (by norm_num)
        · rintro (h | hEx)
          · exact absurd h hs
          · exact absurd (hex.mpr hEx) hp
      · simp only [true_iff]
        refine ⟨hs, fun i hi hE => hp (hex.mpr ⟨i, hi, hE⟩)⟩

end ValidateSkills

namespace ScriptInterfaces

/-- Each Python source file of the repository paired with whether its entry
point builds an argparse parser, transcribed from the sources: every
script uses `argparse` and calls `parser.parse_args()` in `main()` except
`scripts/validate_skills.py`, whose `main()` imports no argparse, builds no
parser and never reads `sys.argv`. -/
def scriptArgparse : List (String × Bool) :=
  [("bruges/scripts/avo_analysis.py", true),
   ("devito/scripts/acoustic_wave.py", true),
   ("disba/scripts/dispersion_analysis.py", true),
   ("dlisio/scripts/dlis_to_las.py", true),
   ("gemgis/scripts/prepare_gempy_data.py", true),
   ("gempy/scripts/export_model.py", true),
   ("gempy/scripts/validate_input.py", true),
   ("geostatspy/scripts/kriging_example.py", true),
   ("gprpy/scripts/process_gpr.py", true),
   ("harmonica/scripts/gravity_processing.py", true),
   ("landlab/scripts/erosion_model.py", true),
   ("lasio/scripts/las_to_csv.py", true),
   ("lasio/scripts/merge_curves.py", true),
   ("lasio/scripts/validate_las.py", true),
   ("loopstructural/scripts/build_model.py", true),
   ("mplstereonet/scripts/structural_analysis.py", true),
   ("mtpy/scripts/mt_analysis.py", true),
   ("obspy/scripts/batch_process.py", true),
   ("obspy/scripts/fetch_earthquake.py", true),
   ("pastas/scripts/groundwater_model.py", true),
   ("petropy/scripts/formation_evaluation.py", true),
   ("pooch/scripts/create_registry.py", true),
   ("pygimli/scripts/ert_inversion.py", true),
   ("pylops/scripts/deconvolution.py", true),
   ("pyrolite/scripts/geochemistry_plots.py", true),
   ("pyvista/scripts/visualize_surface.py", true),
   ("scikit-gstat/scripts/variogram_analysis.py", true),
   ("scripts/validate_skills.py", false),
   ("segyio/scripts/extract_subset.py", true),
   ("segyio/scripts/inspect_segy.py", true),
   ("simpeg/scripts/dc_inversion.py", true),
   ("striplog/scripts/create_striplog.py", true),
   ("verde/scripts/grid_data.py", true),
   ("welly/scripts/project_stats.py", true),
   ("welly/scripts/well_qc.py", true),
   ("xarray/scripts/climate_analysis.py", true)]

/-- Running scripts/validate_skills.py on a command line: `main()` reads no
command-line arguments at all, so the run discards `argv` and its exit
status is `main_exit` of the observed skill directories and marketplace
state. -/
def validate_skills_run (argv : List String)
    (skills : List ValidateSkills.SkillInput)
    (mp : ValidateSkills.MarketplaceState) : ℕ :=
  ValidateSkills.main_exit skills mp

/-- C7 as stated is false: not every source file parses its command line
with argparse — `scripts/validate_skills.py` does not. -/
theorem all_scripts_argparse_false :
    ¬ (∀ e ∈ scriptArgparse, e.2 = true) := by
  intro h
  exact absurd (h ("scripts/validate_skills.py", false) (by decide)) (by decide)

/-- C7 (amended): 35 of the repository's 36 scripts expose an
argparse-based command-line interface; the exception is
`scripts/validate_skills.py`, which uses no argparse and whose behaviour is
independent of the command line: `validate_skills_run` gives the same exit
status for any two argument vectors. -/
theorem argparse_all_but_validate_skills :
    ((scriptArgparse.filter (fun e => e.2 = true)).length = 35 ∧
        scriptArgparse.length = 36 ∧
        scriptArgparse.lookup ("scripts/validate_skills.py") = some false) ∧
      ∀ (argv argvB : List String) (skills : List ValidateSkills.SkillInput)
        (mp : ValidateSkills.MarketplaceState),
        validate_skills_run argv skills mp =
          validate_skills_run argvB skills mp :=
  ⟨⟨by decide, by decide, by decide⟩, fun _ _ _ _ => rfl⟩

end ScriptInterfaces
